import Mathlib

/-
Verification development for the tactical decision core of the
CLSFramework py-agent-2d repository:
  src/strategy/formation_strategy.py   (situation classification, formation
                                        selection, position legality clamp,
                                        role/offside accessors)
  src/decision_makers/decision_maker.py (top-level decision dispatcher)

The world model, the formation-file collaborator (parsing and ball-dependent
positioning), the geometry collaborator (pyrusgeom) and the per-mode decision
makers are external to the repository; where a claim depends on them they are
modelled from the spec, and each such definition says so in its doc comment.
Coordinates are embedded as rationals.
-/

namespace PyAgent2D

/-- 2D point with rational coordinates, embedding pyrusgeom's Vector2D
(only the fields this core reads and writes). -/
structure Vector2D where
  x : ℚ
  y : ℚ
deriving DecidableEq, Repr

/-- Game-mode types from the server protocol (service_pb2); the modes this
core branches on, plus further set-play modes so that "not open play" is
populated beyond the explicitly tested modes. -/
inductive GameModeType where
  | PlayOn
  | PenaltyKick_
  | KickIn_
  | CornerKick_
  | GoalKick_
  | GoalieCatch_
  | BeforeKickOff
  | AfterGoal_
  | KickOff_
  | FreeKick_
  | IndFreeKick_
  | OffSide_
deriving DecidableEq, Repr

/-- Team side, as compared by `wm.game_mode_side is wm.our_side`. -/
inductive Side where
  | left
  | right
deriving DecidableEq, Repr

/-- The five-way Situation enum of formation_strategy.py (lines 12-27). -/
inductive Situation where
  | OurSetPlay_Situation
  | OppSetPlay_Situation
  | Defense_Situation
  | Offense_Situation
  | PenaltyKick_Situation
deriving DecidableEq, Repr

/-- The per-cycle world snapshot fields this core reads (spec section 3).
`wm.self.uniform_number` and `wm.self.is_goalie` are flattened into fields
of this structure. -/
structure WorldModel where
  game_mode_type : GameModeType
  game_mode_side : Side
  our_side : Side
  ball_position : Vector2D
  ball_velocity : Vector2D
  first_teammate_reach_steps : Nat
  first_opponent_reach_steps : Nat
  self_reach_steps : Nat
  uniform_number : Nat
  offside_line_x : ℚ
  is_goalie : Bool
  is_penalty_kick_mode : Bool
deriving DecidableEq, Repr

/-- Modelled from the spec: the geometry collaborator's (pyrusgeom, external
to this repository) inertial decay projection — the point reached after
`n` steps from `pos` with initial velocity `vel` decaying by `decay` each
step, i.e. `pos + vel * (1 - decay^n) / (1 - decay)`. -/
def inertia_n_step_point (pos vel : Vector2D) (n : Nat) (decay : ℚ) : Vector2D :=
  ⟨pos.x + vel.x * ((1 - decay ^ n) / (1 - decay)),
   pos.y + vel.y * ((1 - decay ^ n) / (1 - decay))⟩

/-- Situation classification, formation_strategy.py lines 97-121:
reach-step minima, inertial ball projection over `all_min` steps with decay
0.96, then the four-way branch on game mode. -/
def classifySituation (wm : WorldModel) : Situation :=
  let tm_min := wm.first_teammate_reach_steps
  let opp_min := wm.first_opponent_reach_steps
  let self_min := wm.self_reach_steps
  let all_min := min tm_min (min opp_min self_min)
  let ball_pos := inertia_n_step_point wm.ball_position wm.ball_velocity all_min (96 / 100)
  if wm.game_mode_type = GameModeType.PlayOn then
    let thr : Nat :=
      (if ball_pos.x > 0 then 1 else 0) + (if wm.uniform_number > 6 then 1 else 0)
    if min tm_min self_min < opp_min + thr then
      Situation.Offense_Situation
    else
      Situation.Defense_Situation
  else if wm.game_mode_type = GameModeType.PenaltyKick_ then
    Situation.PenaltyKick_Situation
  else if wm.game_mode_type ≠ GameModeType.PlayOn ∧ wm.game_mode_side = wm.our_side then
    Situation.OurSetPlay_Situation
  else
    Situation.OppSetPlay_Situation

/-- A formation definition, identified by its configuration file path; the
parsing and the ball-dependent position computation live in the external
formation_file collaborator. -/
structure FormationFile where
  path : String
deriving DecidableEq, Repr

/-- The eight context-specific formation files of one formation set
(class Formation, formation_strategy.py lines 29-64). -/
structure Formation where
  before_kick_off_formation : FormationFile
  defense_formation : FormationFile
  offense_formation : FormationFile
  goalie_kick_opp_formation : FormationFile
  goalie_kick_our_formation : FormationFile
  kickin_our_formation : FormationFile
  setplay_opp_formation : FormationFile
  setplay_our_formation : FormationFile
deriving DecidableEq, Repr

/-- Formation.__init__ (lines 47-64): the eight files loaded from one
per-set directory. -/
def Formation.ofPath (path : String) : Formation :=
  ⟨⟨path ++ "/before-kick-off.conf"⟩,
   ⟨path ++ "/defense-formation.conf"⟩,
   ⟨path ++ "/offense-formation.conf"⟩,
   ⟨path ++ "/goalie-kick-opp-formation.conf"⟩,
   ⟨path ++ "/goalie-kick-our-formation.conf"⟩,
   ⟨path ++ "/kickin-our-formation.conf"⟩,
   ⟨path ++ "/setplay-opp-formation.conf"⟩,
   ⟨path ++ "/setplay-our-formation.conf"⟩⟩

/-- The eight formation files of a formation set, as a list. -/
def Formation.files (f : Formation) : List FormationFile :=
  [f.before_kick_off_formation, f.defense_formation, f.offense_formation,
   f.goalie_kick_opp_formation, f.goalie_kick_our_formation,
   f.kickin_our_formation, f.setplay_opp_formation, f.setplay_our_formation]

/-- The formation catalog populated by FormationStrategy._read_formations
(lines 78-81); immutable after startup. -/
def formations : List (String × Formation) :=
  [("4-3-3", Formation.ofPath "src/formations/4-3-3"),
   ("4-3-3-cyrus-base", Formation.ofPath "src/formations/4-3-3-cyrus-base"),
   ("4-3-3-helios-base", Formation.ofPath "src/formations/4-3-3-helios-base")]

/-- The formation set `_set_formation` always selects (line 87). -/
def cyrus_base_formation : Formation :=
  Formation.ofPath "src/formations/4-3-3-cyrus-base"

/-- The mutable state of FormationStrategy: selected set name, current
situation, currently selected formation file, and the position table. -/
structure FormationStrategy where
  selected_formation_name : String
  current_situation : Situation
  current_formation_file : FormationFile
  _poses : List (Nat × Vector2D)
deriving DecidableEq, Repr

/-- FormationStrategy._get_current_formation (lines 83-84): catalog lookup
by the selected name; a missing name is a lookup failure (KeyError). -/
def _get_current_formation (s : FormationStrategy) : Option Formation :=
  (formations.find? (fun nf => nf.1 == s.selected_formation_name)).map (fun nf => nf.2)

/-- FormationStrategy.__init__ (lines 67-76). Note on `_poses`: line 74 of
the source writes a set comprehension `\x7b(i, Vector2D(0, 0)) for i in
range(11)\x7d` where a dict keyed by roster slot was declared (the field is
annotated `dict[int, Vector2D]`); read as the evidently intended dict
comprehension, its keys are 0..10, which is what is embedded here. -/
def initStrategy : FormationStrategy :=
  { selected_formation_name := "4-3-3-cyrus-base"
    current_situation := Situation.Offense_Situation
    current_formation_file := cyrus_base_formation.offense_formation
    _poses := (List.range 11).map (fun i => (i, ⟨0, 0⟩)) }

/-- The catalog lookup performed during construction resolves to the
cyrus-base set, justifying the `current_formation_file` field of
`initStrategy` (line 76 reads `_get_current_formation().offense_formation`). -/
theorem get_current_formation_initStrategy :
    _get_current_formation initStrategy = some cyrus_base_formation := rfl

/-- Formation-file selection, formation_strategy.py lines 123-142: the
priority-ordered if/elif chain; when no branch matches, the previously
selected file `prev` stays in effect. -/
def selectFormationFile (fm : Formation) (sit : Situation) (mode : GameModeType)
    (mode_side our_side : Side) (prev : FormationFile) : FormationFile :=
  if sit = Situation.Offense_Situation then
    fm.offense_formation
  else if sit = Situation.Defense_Situation then
    fm.defense_formation
  else if mode ∈ [GameModeType.KickIn_, GameModeType.CornerKick_] then
    if mode_side = our_side then fm.kickin_our_formation else fm.setplay_opp_formation
  else if mode ∈ [GameModeType.GoalKick_, GameModeType.GoalieCatch_] then
    if mode_side = our_side then fm.goalie_kick_our_formation else fm.goalie_kick_opp_formation
  else if mode ∈ [GameModeType.BeforeKickOff, GameModeType.AfterGoal_] then
    fm.before_kick_off_formation
  else if sit = Situation.OppSetPlay_Situation then
    fm.setplay_opp_formation
  else if sit = Situation.OurSetPlay_Situation then
    fm.setplay_our_formation
  else
    prev

/-- The legality ceiling applied to each position's x (lines 147-153):
-0.5 before kickoff / after a goal, offside line minus 0.5 otherwise. -/
def legalityBound (wm : WorldModel) : ℚ :=
  if wm.game_mode_type ∈ [GameModeType.BeforeKickOff, GameModeType.AfterGoal_] then
    -(1 / 2)
  else
    wm.offside_line_x - 1 / 2

/-- FormationStrategy.update (lines 89-155): reselect the formation set
name, classify the situation, select the formation file, then store the
clamped position table. The formation-file collaborator's
`update(ball_pos)` / `get_poses()` round trip is external to the
repository, so the raw position table it returns enters as the
`raw_poses` argument. A failed catalog lookup (Python KeyError) is `none`. -/
def update (s : FormationStrategy) (wm : WorldModel)
    (raw_poses : List (Nat × Vector2D)) : Option FormationStrategy :=
  let s1 := { s with selected_formation_name := "4-3-3-cyrus-base" }
  match _get_current_formation s1 with
  | none => none
  | some fm =>
    let sit := classifySituation wm
    let f := selectFormationFile fm sit wm.game_mode_type wm.game_mode_side
      wm.our_side s1.current_formation_file
    some { s1 with
      current_situation := sit
      current_formation_file := f
      _poses := raw_poses.map (fun np => (np.1, ⟨min np.2.x (legalityBound wm), np.2.y⟩)) }

/-- The always-taken branch of `update`: since `_set_formation` pins the
set name to a catalog key, the lookup always succeeds and `update` always
produces this state. -/
def updateRun (s : FormationStrategy) (wm : WorldModel)
    (raw_poses : List (Nat × Vector2D)) : FormationStrategy :=
  { selected_formation_name := "4-3-3-cyrus-base"
    current_situation := classifySituation wm
    current_formation_file := selectFormationFile cyrus_base_formation
      (classifySituation wm) wm.game_mode_type wm.game_mode_side wm.our_side
      s.current_formation_file
    _poses := raw_poses.map (fun np => (np.1, ⟨min np.2.x (legalityBound wm), np.2.y⟩)) }

/-- `update` never hits the KeyError branch: it always returns `updateRun`. -/
theorem update_eq (s : FormationStrategy) (wm : WorldModel)
    (raw_poses : List (Nat × Vector2D)) :
    update s wm raw_poses = some (updateRun s wm raw_poses) := rfl

/-- FormationStrategy.get_position (lines 157-158): dict lookup by uniform
number; a missing key (Python KeyError) is `none`. -/
def get_position (s : FormationStrategy) (uniform_number : Nat) : Option Vector2D :=
  (s._poses.find? (fun np => np.1 == uniform_number)).map (fun np => np.2)

/-- FormationStrategy.get_offside_line (lines 175-183): sort the stored
x-coordinates ascending and return index 1, falling back to index 0 for a
single entry and 0.0 for an empty table. -/
def get_offside_line (s : FormationStrategy) : ℚ :=
  match List.insertionSort (fun a b => a ≤ b) (s._poses.map (fun np => np.2.x)) with
  | [] => 0
  | [a] => a
  | _ :: b :: _ => b

/-- An action request enqueued on the agent, abstracted to which behavior
produced it (the payloads live in external collaborators). -/
inductive PlayerAction where
  | helios_goalie
  | play_on_action
  | penalty_action
  | set_play_action
deriving DecidableEq, Repr

/-- Modelled from the spec: PlayOnDecisionMaker (external to src/) enqueues
exactly one open-play action on the agent. -/
def play_on_make_decision : List PlayerAction := [PlayerAction.play_on_action]

/-- Modelled from the spec: PenaltyDecisionMaker (external to src/) enqueues
exactly one penalty action on the agent. -/
def penalty_make_decision : List PlayerAction := [PlayerAction.penalty_action]

/-- Modelled from the spec: SetPlayDecisionMaker (external to src/) enqueues
exactly one set-play action on the agent. -/
def set_play_make_decision : List PlayerAction := [PlayerAction.set_play_action]

/-- DecisionMaker.make_decision (decision_maker.py lines 30-38): the
priority-ordered dispatch; the returned list is the sequence of action
requests enqueued on the agent during the call. -/
def make_decision (wm : WorldModel) : List PlayerAction :=
  if wm.is_goalie then
    [PlayerAction.helios_goalie]
  else if wm.game_mode_type = GameModeType.PlayOn then
    play_on_make_decision
  else if wm.is_penalty_kick_mode then
    penalty_make_decision
  else
    set_play_make_decision

/-- Follows the spec's words (section 4.1): the behavior chosen by the
documented first-match-wins order — goalie, open play, penalty mode,
generic set play. -/
def dispatchSpec (wm : WorldModel) : PlayerAction :=
  if wm.is_goalie then
    PlayerAction.helios_goalie
  else if wm.game_mode_type = GameModeType.PlayOn then
    PlayerAction.play_on_action
  else if wm.is_penalty_kick_mode then
    PlayerAction.penalty_action
  else
    PlayerAction.set_play_action

/-- Follows the spec's words (section 4.3): the 7-step precedence table
for formation selection, with the stale-carryover default. -/
def selectFormationSpec (fm : Formation) (sit : Situation) (mode : GameModeType)
    (mode_side our_side : Side) (prev : FormationFile) : FormationFile :=
  if sit = Situation.Offense_Situation then
    fm.offense_formation
  else if sit = Situation.Defense_Situation then
    fm.defense_formation
  else if mode = GameModeType.KickIn_ ∨ mode = GameModeType.CornerKick_ then
    if mode_side = our_side then fm.kickin_our_formation else fm.setplay_opp_formation
  else if mode = GameModeType.GoalKick_ ∨ mode = GameModeType.GoalieCatch_ then
    if mode_side = our_side then fm.goalie_kick_our_formation else fm.goalie_kick_opp_formation
  else if mode = GameModeType.BeforeKickOff ∨ mode = GameModeType.AfterGoal_ then
    fm.before_kick_off_formation
  else if sit = Situation.OppSetPlay_Situation then
    fm.setplay_opp_formation
  else if sit = Situation.OurSetPlay_Situation then
    fm.setplay_our_formation
  else
    prev

/-- Scenario A world model: open play, ball at (10,0) at rest, reach steps
teammate 3 / opponent 5 / self 4, roster number 5. -/
def wmA : WorldModel :=
  { game_mode_type := GameModeType.PlayOn
    game_mode_side := Side.left
    our_side := Side.left
    ball_position := ⟨10, 0⟩
    ball_velocity := ⟨0, 0⟩
    first_teammate_reach_steps := 3
    first_opponent_reach_steps := 5
    self_reach_steps := 4
    uniform_number := 5
    offside_line_x := 0
    is_goalie := false
    is_penalty_kick_mode := false }

/-- A kick-in cycle awarded to our side. -/
def wmKickInOurs : WorldModel :=
  { wmA with
    game_mode_type := GameModeType.KickIn_
    game_mode_side := Side.left
    our_side := Side.left }

/-- C1: in open play the classified Situation is Offense exactly when
`min(teammate_reach, self_reach) < opponent_reach + threshold`, with
`threshold = (1 if predicted_ball.x > 0) + (1 if roster number > 6)` and the
predicted ball point the inertial projection over
`min(teammate_reach, opponent_reach, self_reach)` steps with decay 0.96,
and Defense otherwise. -/
theorem playOn_offense_defense (wm : WorldModel)
    (h : wm.game_mode_type = GameModeType.PlayOn) :
    classifySituation wm =
      (if min wm.first_teammate_reach_steps wm.self_reach_steps <
          wm.first_opponent_reach_steps +
            ((if (inertia_n_step_point wm.ball_position wm.ball_velocity
                  (min wm.first_teammate_reach_steps
                    (min wm.first_opponent_reach_steps wm.self_reach_steps))
                  (96 / 100)).x > 0 then 1 else 0) +
             (if wm.uniform_number > 6 then 1 else 0)) then
        Situation.Offense_Situation
      else
        Situation.Defense_Situation) := by
  simp only [classifySituation, h, if_pos, reduceIte]

/-- C1 witness: scenario A evaluates to Offense through the theorem. -/
theorem playOn_offense_defense_witness :
    classifySituation wmA = Situation.Offense_Situation := by
  have h := playOn_offense_defense wmA rfl
  rw [h]
  norm_num [inertia_n_step_point, wmA]

/-- C2: the formation selector implements exactly the 7-step precedence of
the spec, with the previous selection retained when no step matches. -/
theorem selectFormationFile_eq_spec (fm : Formation) (sit : Situation)
    (mode : GameModeType) (mode_side our_side : Side) (prev : FormationFile) :
    selectFormationFile fm sit mode mode_side our_side prev =
      selectFormationSpec fm sit mode mode_side our_side prev := by
  cases sit <;> cases mode <;> cases mode_side <;> cases our_side <;> rfl

/-- C5: the decision dispatcher takes exactly one branch in the documented
order (goalie, open play, penalty mode, set play) and enqueues exactly one
action request. -/
theorem make_decision_exactly_one (wm : WorldModel) :
    make_decision wm = [dispatchSpec wm] ∧ (make_decision wm).length = 1 := by
  constructor
  · unfold make_decision dispatchSpec play_on_make_decision penalty_make_decision
      set_play_make_decision
    split_ifs <;> rfl
  · unfold make_decision play_on_make_decision penalty_make_decision
      set_play_make_decision
    split_ifs <;> rfl

/-- C7: outside open play, penalty-kick mode is classified first as
PenaltyKick; otherwise the set-play side decides between OurSetPlay and
OppSetPlay — one Situation value per cycle, `classifySituation` being a
total function into the five-valued enum. -/
theorem nonPlayOn_classification_order (wm : WorldModel)
    (h : wm.game_mode_type ≠ GameModeType.PlayOn) :
    classifySituation wm =
      (if wm.game_mode_type = GameModeType.PenaltyKick_ then
        Situation.PenaltyKick_Situation
      else if wm.game_mode_side = wm.our_side then
        Situation.OurSetPlay_Situation
      else
        Situation.OppSetPlay_Situation) := by
  simp only [classifySituation, h, if_neg, reduceIte, ne_eq, not_false_eq_true, true_and]

/-- C7 witness: a kick-in awarded to our side classifies as OurSetPlay. -/
theorem nonPlayOn_classification_order_witness :
    classifySituation wmKickInOurs = Situation.OurSetPlay_Situation := by
  have h := nonPlayOn_classification_order wmKickInOurs (by decide)
  rw [h]
  rfl

/-- Scenario C world model: a before-kickoff cycle. -/
def wmC : WorldModel :=
  { wmA with game_mode_type := GameModeType.BeforeKickOff }

/-- Scenario C raw formation output: one slot at x = 0.3. -/
def rawC : List (Nat × Vector2D) := [(3, ⟨3 / 10, 2⟩)]

/-- Scenario E world model: a penalty-kick cycle. -/
def wmE : WorldModel :=
  { wmA with game_mode_type := GameModeType.PenaltyKick_ }

/-- C3: after an update, every stored position's x-coordinate is at most the
cycle's legality bound — at most -0.5 when the game mode is before-kickoff
or after-goal, and at most offside_line_x - 0.5 for every other mode. -/
theorem update_poses_le_legality_bound (s : FormationStrategy) (wm : WorldModel)
    (raw_poses : List (Nat × Vector2D)) (s2 : FormationStrategy)
    (h : update s wm raw_poses = some s2)
    (np : Nat × Vector2D) (hmem : np ∈ s2._poses) :
    np.2.x ≤ (if wm.game_mode_type = GameModeType.BeforeKickOff ∨
        wm.game_mode_type = GameModeType.AfterGoal_ then
      -(1 / 2 : ℚ)
    else
      wm.offside_line_x - 1 / 2) := by
  rw [update_eq] at h
  injection h with h2
  subst h2
  simp only [updateRun] at hmem
  obtain ⟨q, hq, rfl⟩ := List.mem_map.1 hmem
  have hb : legalityBound wm =
      (if wm.game_mode_type = GameModeType.BeforeKickOff ∨
          wm.game_mode_type = GameModeType.AfterGoal_ then
        -(1 / 2 : ℚ)
      else
        wm.offside_line_x - 1 / 2) := by
    simp [legalityBound]
  rw [← hb]
  exact min_le_right _ _

/-- C3 witness: scenario C — a before-kickoff cycle with a raw position at
x = 0.3 is stored with x within the -0.5 bound. -/
theorem update_poses_le_legality_bound_witness :
    ((3 : Nat), (⟨min (3 / 10 : ℚ) (legalityBound wmC), 2⟩ : Vector2D)).2.x ≤
      (if wmC.game_mode_type = GameModeType.BeforeKickOff ∨
          wmC.game_mode_type = GameModeType.AfterGoal_ then
        -(1 / 2 : ℚ)
      else
        wmC.offside_line_x - 1 / 2) :=
  update_poses_le_legality_bound initStrategy wmC rawC
    (updateRun initStrategy wmC rawC) (update_eq initStrategy wmC rawC)
    (3, ⟨min (3 / 10 : ℚ) (legalityBound wmC), 2⟩)
    (List.mem_singleton.mpr rfl)

/-- C4: on a penalty-kick cycle the situation classifies as PenaltyKick, no
formation-selection branch matches, and the selected formation file is
carried over unchanged from the previous cycle. -/
theorem penalty_stale_carryover (s : FormationStrategy) (wm : WorldModel)
    (raw_poses : List (Nat × Vector2D)) (s2 : FormationStrategy)
    (hmode : wm.game_mode_type = GameModeType.PenaltyKick_)
    (h : update s wm raw_poses = some s2) :
    s2.current_situation = Situation.PenaltyKick_Situation ∧
    s2.current_formation_file = s.current_formation_file := by
  rw [update_eq] at h
  injection h with h2
  subst h2
  have hsit : classifySituation wm = Situation.PenaltyKick_Situation := by
    simp [classifySituation, hmode]
  constructor
  · simpa [updateRun] using hsit
  · simp only [updateRun]
    rw [hsit, hmode]
    rfl

/-- C4 witness: scenario E — a penalty-kick cycle starting from the initial
state keeps the initial formation file. -/
theorem penalty_stale_carryover_witness :
    (updateRun initStrategy wmE []).current_situation =
      Situation.PenaltyKick_Situation ∧
    (updateRun initStrategy wmE []).current_formation_file =
      initStrategy.current_formation_file :=
  penalty_stale_carryover initStrategy wmE [] (updateRun initStrategy wmE [])
    rfl (update_eq initStrategy wmE [])

/-- C8: the spec requires the position table to cover roster slots 1..11
from construction onward, but line 74 of formation_strategy.py builds the
initial table over `range(11)` (keys 0..10, and as a set rather than the
annotated dict): immediately after construction, slot 11 has no entry
while the non-slot 0 does. -/
theorem get_position_after_init :
    get_position initStrategy 11 = none ∧
    get_position initStrategy 0 = some ⟨0, 0⟩ := by
  constructor <;> rfl

/-- C9: the legality clamp stores, slot by slot, exactly the minimum of the
raw x and the bound — so it never raises an x — and copies y unchanged. -/
theorem clamp_ceiling_only (s : FormationStrategy) (wm : WorldModel)
    (raw_poses : List (Nat × Vector2D)) (s2 : FormationStrategy)
    (h : update s wm raw_poses = some s2) (i : Nat) (hi : i < raw_poses.length) :
    ∃ hj : i < s2._poses.length,
      (s2._poses.get ⟨i, hj⟩).1 = (raw_poses.get ⟨i, hi⟩).1 ∧
      (s2._poses.get ⟨i, hj⟩).2.x =
        min (raw_poses.get ⟨i, hi⟩).2.x (legalityBound wm) ∧
      (s2._poses.get ⟨i, hj⟩).2.x ≤ (raw_poses.get ⟨i, hi⟩).2.x ∧
      (s2._poses.get ⟨i, hj⟩).2.y = (raw_poses.get ⟨i, hi⟩).2.y := by
  rw [update_eq] at h
  injection h with h2
  subst h2
  have hlen : (updateRun s wm raw_poses)._poses.length = raw_poses.length := by
    simp [updateRun]
  refine ⟨hlen ▸ hi, ?_⟩
  have hget : (updateRun s wm raw_poses)._poses.get ⟨i, hlen ▸ hi⟩ =
      ((raw_poses.get ⟨i, hi⟩).1,
        ⟨min (raw_poses.get ⟨i, hi⟩).2.x (legalityBound wm),
         (raw_poses.get ⟨i, hi⟩).2.y⟩) := by
    simp [updateRun, List.get_eq_getElem, List.getElem_map]
  rw [hget]
  exact ⟨rfl, rfl, min_le_left _ _, rfl⟩

/-- C9 witness: scenario C's single raw position, clamped. -/
theorem clamp_ceiling_only_witness :
    ∃ hj : 0 < (updateRun initStrategy wmC rawC)._poses.length,
      ((updateRun initStrategy wmC rawC)._poses.get ⟨0, hj⟩).1 =
        (rawC.get ⟨0, Nat.zero_lt_one⟩).1 ∧
      ((updateRun initStrategy wmC rawC)._poses.get ⟨0, hj⟩).2.x =
        min (rawC.get ⟨0, Nat.zero_lt_one⟩).2.x (legalityBound wmC) ∧
      ((updateRun initStrategy wmC rawC)._poses.get ⟨0, hj⟩).2.x ≤
        (rawC.get ⟨0, Nat.zero_lt_one⟩).2.x ∧
      ((updateRun initStrategy wmC rawC)._poses.get ⟨0, hj⟩).2.y =
        (rawC.get ⟨0, Nat.zero_lt_one⟩).2.y :=
  clamp_ceiling_only initStrategy wmC rawC (updateRun initStrategy wmC rawC)
    (update_eq initStrategy wmC rawC) 0 Nat.zero_lt_one

/-- Follows the spec's words: `r` is the second-smallest value of `xs` —
some minimum `m` of `xs` can be set aside so that `r` is a minimum of what
remains (duplicates counted with multiplicity). -/
def IsSecondSmallest (r : ℚ) (xs : List ℚ) : Prop :=
  ∃ m, m ∈ xs ∧ (∀ y ∈ xs, m ≤ y) ∧ r ∈ xs.erase m ∧ ∀ y ∈ xs.erase m, r ≤ y

/-- Scenario D position table: x-values -5, -3, -1, 0, 2, 4, 6, 8, 9, 10, 11. -/
def strategyD : FormationStrategy :=
  { initStrategy with
    _poses := [(1, ⟨-5, 0⟩), (2, ⟨-3, 0⟩), (3, ⟨-1, 0⟩), (4, ⟨0, 0⟩),
               (5, ⟨2, 0⟩), (6, ⟨4, 0⟩), (7, ⟨6, 0⟩), (8, ⟨8, 0⟩),
               (9, ⟨9, 0⟩), (10, ⟨10, 0⟩), (11, ⟨11, 0⟩)] }

/-- C6: the offside-line accessor returns 0.0 on an empty position table,
the single x-value on a one-entry table, and the second-smallest stored
x-coordinate as soon as more than one position exists. -/
theorem get_offside_line_second_smallest (s : FormationStrategy) :
    (s._poses = [] → get_offside_line s = 0) ∧
    (∀ n p, s._poses = [(n, p)] → get_offside_line s = p.x) ∧
    (1 < s._poses.length →
      IsSecondSmallest (get_offside_line s) (s._poses.map (fun np => np.2.x))) := by
  refine ⟨?_, ?_, ?_⟩
  · intro h
    simp [get_offside_line, h, List.insertionSort]
  · intro n p h
    simp [get_offside_line, h, List.insertionSort, List.orderedInsert]
  · intro hlen
    have hperm : List.Perm (List.insertionSort (fun a b => a ≤ b)
        (s._poses.map (fun np => np.2.x))) (s._poses.map (fun np => np.2.x)) :=
      List.perm_insertionSort _ _
    have hsort : List.Sorted (fun a b => a ≤ b)
        (List.insertionSort (fun a b => a ≤ b) (s._poses.map (fun np => np.2.x))) :=
      List.sorted_insertionSort _ _
    have hlen2 : 1 < (List.insertionSort (fun a b => a ≤ b)
        (s._poses.map (fun np => np.2.x))).length := by
      rw [hperm.length_eq, List.length_map]
      exact hlen
    obtain ⟨a, b, t, hl⟩ : ∃ a b t, List.insertionSort (fun a b => a ≤ b)
        (s._poses.map (fun np => np.2.x)) = a :: b :: t := by
      rcases hml : List.insertionSort (fun a b => a ≤ b)
          (s._poses.map (fun np => np.2.x)) with _ | ⟨a, _ | ⟨b, t⟩⟩
      · rw [hml] at hlen2
        simp at hlen2
      · rw [hml] at hlen2
        simp at hlen2
      · exact ⟨a, b, t, hml⟩
    have hval : get_offside_line s = b := by
      unfold get_offside_line
      rw [hl]
    rw [hval]
    rw [hl] at hsort hperm
    obtain ⟨ha1, hsort1⟩ := List.sorted_cons.mp hsort
    obtain ⟨hb1, _⟩ := List.sorted_cons.mp hsort1
    refine ⟨a, hperm.subset (List.mem_cons_self a (b :: t)), ?_, ?_, ?_⟩
    · intro y hy
      rcases List.mem_cons.mp (hperm.symm.subset hy) with h1 | h2
      · exact h1 ▸ le_refl a
      · exact ha1 y h2
    · refine (hperm.erase a).subset ?_
      rw [List.erase_cons_head]
      exact List.mem_cons_self b t
    · intro y hy
      have hy2 : y ∈ (a :: b :: t).erase a := ((hperm.erase a).mem_iff).mpr hy
      rw [List.erase_cons_head] at hy2
      rcases List.mem_cons.mp hy2 with h1 | h2
      · exact h1 ▸ le_refl b
      · exact hb1 y h2

/-- C6 witness: scenario D — with x-values -5..11 stored, the accessor's
value is the second-smallest, -3. -/
theorem get_offside_line_second_smallest_witness :
    get_offside_line strategyD = -3 ∧
    IsSecondSmallest (get_offside_line strategyD)
      (strategyD._poses.map (fun np => np.2.x)) :=
  ⟨by decide,
   (get_offside_line_second_smallest strategyD).2.2 (by decide)⟩

/-- The states the strategy object can be in: the constructed state and
anything an update cycle produces from a reachable state. -/
inductive Reachable : FormationStrategy → Prop where
  | init : Reachable initStrategy
  | step (s : FormationStrategy) (wm : WorldModel)
      (raw_poses : List (Nat × Vector2D)) (s2 : FormationStrategy) :
      Reachable s → update s wm raw_poses = some s2 → Reachable s2

/-- C10: the selected formation file starts out as the active set's offense
formation and, over any run of update cycles, always remains one of the
eight files of the active (cyrus-base) formation set — so the penalty-kick
carryover always has a formation to retain, already on the first cycle. -/
theorem formation_file_always_in_active_set :
    initStrategy.current_formation_file = cyrus_base_formation.offense_formation ∧
    ∀ s, Reachable s → s.current_formation_file ∈ cyrus_base_formation.files := by
  refine ⟨rfl, ?_⟩
  intro s h
  induction h with
  | init =>
      simp [initStrategy, Formation.files]
  | step s1 wm raw_poses s2 hr heq ih =>
      rw [update_eq] at heq
      injection heq with h2
      subst h2
      simp only [updateRun]
      unfold selectFormationFile
      split_ifs <;> first | exact ih | simp [Formation.files]

/-- C10 witness: the constructed state's formation file is in the active
set's eight files. -/
theorem formation_file_always_in_active_set_witness :
    initStrategy.current_formation_file ∈ cyrus_base_formation.files :=
  formation_file_always_in_active_set.2 initStrategy Reachable.init

end PyAgent2D
